import Mathlib

/-!
Verification of the work-platform freelance-marketplace backend.

This file gives a shallow embedding of the project-lifecycle core
(src/models.py, src/crud.py, src/routers/projects.py) and proves or refutes
the frozen claims about it.

Modelling conventions:
- database rows become Lean structures; the whole database is a record of
  lists of rows (insertion order = storage order);
- SQLAlchemy timestamps become integers (only their linear order matters);
- Python float dimension values and budgets become rationals;
- fallible operations return Option (crud layer) or Except ApiError
  (router layer); an error raised in a router before the crud call leaves
  the database untouched, which the embedding reflects by returning no
  new database on error;
- the onupdate=datetime.utcnow column projects.updated_at is refreshed on
  every row mutation, so every mutating operation also sets updated_at;
- Python round(x, 1) is modelled as round-half-to-even of 10*x over the
  rationals (pyRound1 below).
-/

namespace WorkPlatform

/-- Enumeration models.ProjectStatus. -/
inductive ProjectStatus
  | DRAFT
  | OPEN
  | IN_PROGRESS
  | SUBMITTED
  | COMPLETED
  | REJECTED
deriving DecidableEq

/-- Enumeration models.IssueStatus. -/
inductive IssueStatus
  | OPEN
  | RESOLVED
deriving DecidableEq

/-- Row of the projects table (models.Project). -/
structure Project where
  id : Nat
  title : String
  description : String
  budget : Option ℚ
  status : ProjectStatus
  client_id : Nat
  contractor_id : Option Nat
  created_at : Int
  updated_at : Int
  completed_at : Option Int
  submission_file_url : Option String
  rejection_reason : Option String
  deadline : Option Int
deriving DecidableEq

/-- Row of the submission_versions table (models.SubmissionVersion). -/
structure SubmissionVersion where
  id : Nat
  project_id : Nat
  version : Nat
  submit_url : String
  created_at : Int
deriving DecidableEq

/-- Row of the proposals table (models.Proposal). -/
structure Proposal where
  id : Nat
  project_id : Nat
  contractor_id : Nat
  price : ℚ
  description : Option String
  created_at : Int
deriving DecidableEq

/-- Row of the proposal_files table (models.ProposalFile). -/
structure ProposalFile where
  id : Nat
  proposal_id : Nat
  original_filename : String
  stored_path : String
  version : Nat
  uploaded_at : Int
deriving DecidableEq

/-- Row of the issues table (models.Issue). -/
structure Issue where
  id : Nat
  project_id : Nat
  title : String
  description : Option String
  status : IssueStatus
  created_by_id : Nat
  created_at : Int
  resolved_at : Option Int
deriving DecidableEq

/-- Row of the ratings table (models.Rating).  The column
cooperation_attitude is nullable=False, the four direction-specific
dimensions are nullable. -/
structure Rating where
  id : Nat
  rater_id : Nat
  project_id : Nat
  rated_user_id : Nat
  cooperation_attitude : ℚ
  demand_reasonableness : Option ℚ
  acceptance_difficulty : Option ℚ
  output_quality : Option ℚ
  execution_efficiency : Option ℚ
  comment : Option String
  created_at : Int
deriving DecidableEq

/-- The database state: one list of rows per table, in storage order. -/
structure DB where
  projects : List Project
  proposals : List Proposal
  proposal_files : List ProposalFile
  submission_versions : List SubmissionVersion
  issues : List Issue
  ratings : List Rating
deriving DecidableEq

/-- Errors raised by the router layer, keyed by HTTP status:
notFound is 404, invalidState and badRequest are 400, forbidden is 403,
conflict is 409. -/
inductive ApiError
  | notFound
  | invalidState
  | forbidden
  | conflict
  | badRequest
deriving DecidableEq

deriving instance DecidableEq for Except

/-- crud.get_project: first row whose primary key matches. -/
def get_project (db : DB) (project_id : Nat) : Option Project :=
  db.projects.find? (fun p => decide (p.id = project_id))

/-- Commit of an ORM mutation of the project row with the given id:
every row whose id matches (at most one, id being the primary key) is
replaced by its image under f. -/
def setProject (db : DB) (project_id : Nat) (f : Project → Project) : DB :=
  { db with
    projects := db.projects.map (fun p => if p.id = project_id then f p else p) }

/-- crud.is_project_open_for_bidding: status must be OPEN; a missing
deadline means no time limit; otherwise the deadline must be strictly in
the future. -/
def is_project_open_for_bidding (project : Project) (now : Int) : Bool :=
  if project.status ≠ ProjectStatus.OPEN then
    false
  else
    match project.deadline with
    | none => true
    | some d => decide (now < d)

/-- crud.create_project: the new row gets status OPEN explicitly, the
client reference from the caller, and no contractor. -/
def create_project (db : DB) (title description : String) (budget : Option ℚ)
    (deadline : Option Int) (client_id : Nat) (now : Int) (new_id : Nat) :
    Project × DB :=
  let p : Project :=
    { id := new_id
      title := title
      description := description
      budget := budget
      status := ProjectStatus.OPEN
      client_id := client_id
      contractor_id := none
      created_at := now
      updated_at := now
      completed_at := none
      submission_file_url := none
      rejection_reason := none
      deadline := deadline }
  (p, { db with projects := db.projects ++ [p] })

/-- crud.select_contractor: if the project exists, set the contractor
reference and move status to IN_PROGRESS; there is no check of the
current status and no check that the contractor is still unset. -/
def select_contractor (db : DB) (project_id contractor_id : Nat) (now : Int) :
    Option Project × DB :=
  match get_project db project_id with
  | none => (none, db)
  | some _ =>
    let db' := setProject db project_id (fun p =>
      { p with
        contractor_id := some contractor_id
        status := ProjectStatus.IN_PROGRESS
        updated_at := now })
    (get_project db' project_id, db')

/-- Router select_contractor: 404 when the project does not exist. -/
def select_contractor_api (db : DB) (project_id contractor_id : Nat) (now : Int) :
    Except ApiError (Project × DB) :=
  match select_contractor db project_id contractor_id now with
  | (none, _) => Except.error ApiError.notFound
  | (some p, db') => Except.ok (p, db')

/-- Rows of the submission ledger belonging to one project. -/
def versionsFor (db : DB) (project_id : Nat) : List SubmissionVersion :=
  db.submission_versions.filter (fun v => decide (v.project_id = project_id))

/-- Version number of the row returned by ordering a parent's ledger rows
by version descending and taking the first: the maximum version present,
0 when the ledger is empty. -/
def maxVersion (vs : List SubmissionVersion) : Nat :=
  vs.foldr (fun v acc => max v.version acc) 0

/-- crud.add_submission_version: look up the row with the highest version
for the project (ordered descending, first), insert a new row at version
last+1, or 1 when no row exists. -/
def add_submission_version (db : DB) (project_id : Nat) (submit_url : String)
    (now : Int) (new_id : Nat) : SubmissionVersion × DB :=
  let new_version := maxVersion (versionsFor db project_id) + 1
  let ver : SubmissionVersion :=
    { id := new_id
      project_id := project_id
      version := new_version
      submit_url := submit_url
      created_at := now }
  (ver, { db with submission_versions := db.submission_versions ++ [ver] })

/-- Predicate ordering submission-ledger rows by version number. -/
def subVerLe (a b : SubmissionVersion) : Prop :=
  a.version ≤ b.version

instance : DecidableRel subVerLe :=
  fun a b => Nat.decLe a.version b.version

/-- crud.get_submission_versions: all rows of the project's ledger ordered
ascending by version number. -/
def get_submission_versions (db : DB) (project_id : Nat) : List SubmissionVersion :=
  List.insertionSort subVerLe (versionsFor db project_id)

/-- Rows of the proposal-file ledger belonging to one proposal. -/
def proposalFilesFor (db : DB) (proposal_id : Nat) : List ProposalFile :=
  db.proposal_files.filter (fun f => decide (f.proposal_id = proposal_id))

/-- Version number of the row returned by ordering a proposal's file rows
by version descending and taking the first: the maximum version present,
0 when there is none. -/
def maxFileVersion (fs : List ProposalFile) : Nat :=
  fs.foldr (fun f acc => max f.version acc) 0

/-- crud.add_proposal_file: look up the row with the highest version for
the proposal (ordered descending, first), insert a new row at version
last+1, or 1 when no row exists. -/
def add_proposal_file (db : DB) (proposal_id : Nat) (original_filename stored_path : String)
    (now : Int) (new_id : Nat) : ProposalFile × DB :=
  let next_ver := maxFileVersion (proposalFilesFor db proposal_id) + 1
  let f : ProposalFile :=
    { id := new_id
      proposal_id := proposal_id
      original_filename := original_filename
      stored_path := stored_path
      version := next_ver
      uploaded_at := now }
  (f, { db with proposal_files := db.proposal_files ++ [f] })

/-- Predicate ordering proposal-file rows by version number. -/
def fileVerLe (a b : ProposalFile) : Prop :=
  a.version ≤ b.version

instance : DecidableRel fileVerLe :=
  fun a b => Nat.decLe a.version b.version

/-- crud.get_proposal_files: all file rows of the proposal ordered
ascending by version number. -/
def get_proposal_files (db : DB) (proposal_id : Nat) : List ProposalFile :=
  List.insertionSort fileVerLe (proposalFilesFor db proposal_id)

/-- crud.submit_project: if the project exists, set status SUBMITTED and
updated_at, then append a submission-ledger row carrying the locator.
The cached column submission_file_url is never written here. -/
def submit_project (db : DB) (project_id : Nat) (file_url : String) (now : Int)
    (new_id : Nat) : Option Project × DB :=
  match get_project db project_id with
  | none => (none, db)
  | some _ =>
    let db1 := setProject db project_id (fun p =>
      { p with
        status := ProjectStatus.SUBMITTED
        updated_at := now })
    let db2 := (add_submission_version db1 project_id file_url now new_id).2
    (get_project db2 project_id, db2)

/-- Router submit_project: 404 when the project is missing, 400 when the
status is neither IN_PROGRESS nor REJECTED; the locator argument stands
for the URL computed from the uploaded file or the legacy form field. -/
def submit_project_api (db : DB) (project_id : Nat) (locator : String) (now : Int)
    (new_id : Nat) : Except ApiError (Project × DB) :=
  match get_project db project_id with
  | none => Except.error ApiError.notFound
  | some p =>
    if ¬ (p.status = ProjectStatus.IN_PROGRESS ∨ p.status = ProjectStatus.REJECTED) then
      Except.error ApiError.invalidState
    else
      match submit_project db project_id locator now new_id with
      | (none, _) => Except.error ApiError.notFound
      | (some q, db') => Except.ok (q, db')

/-- crud.has_open_issues: at least one issue row of the project has
status OPEN. -/
def has_open_issues (db : DB) (project_id : Nat) : Bool :=
  0 < (db.issues.filter (fun i =>
    decide (i.project_id = project_id) && decide (i.status = IssueStatus.OPEN))).length

/-- crud.accept_project: if the project exists, set status COMPLETED and
the completion timestamp; there is no check of the current status. -/
def accept_project (db : DB) (project_id : Nat) (now : Int) : Option Project × DB :=
  match get_project db project_id with
  | none => (none, db)
  | some _ =>
    let db' := setProject db project_id (fun p =>
      { p with
        status := ProjectStatus.COMPLETED
        completed_at := some now
        updated_at := now })
    (get_project db' project_id, db')

/-- Router accept_project: 400 when an OPEN issue remains (checked before
anything else, so the database is untouched), 404 when the project does
not exist. -/
def accept_project_api (db : DB) (project_id : Nat) (now : Int) :
    Except ApiError (Project × DB) :=
  if has_open_issues db project_id then
    Except.error ApiError.badRequest
  else
    match accept_project db project_id now with
    | (none, _) => Except.error ApiError.notFound
    | (some p, db') => Except.ok (p, db')

/-- crud.reject_project: if the project exists, set status REJECTED and
store the rejection reason; there is no check of the current status, and
the cached submission_file_url is not touched. -/
def reject_project (db : DB) (project_id : Nat) (reason : String) (now : Int) :
    Option Project × DB :=
  match get_project db project_id with
  | none => (none, db)
  | some _ =>
    let db' := setProject db project_id (fun p =>
      { p with
        status := ProjectStatus.REJECTED
        rejection_reason := some reason
        updated_at := now })
    (get_project db' project_id, db')

/-- Router reject_project: 404 when the project does not exist. -/
def reject_project_api (db : DB) (project_id : Nat) (reason : String) (now : Int) :
    Except ApiError (Project × DB) :=
  match reject_project db project_id reason now with
  | (none, _) => Except.error ApiError.notFound
  | (some p, db') => Except.ok (p, db')

/-- crud.create_issue: nothing happens unless the project exists and its
status is SUBMITTED; the new issue row takes the models.Issue column
default status OPEN. -/
def create_issue (db : DB) (project_id creator_id : Nat) (title : String)
    (description : Option String) (now : Int) (new_id : Nat) :
    Option Issue × DB :=
  match get_project db project_id with
  | none => (none, db)
  | some project =>
    if project.status ≠ ProjectStatus.SUBMITTED then
      (none, db)
    else
      let issue : Issue :=
        { id := new_id
          project_id := project_id
          title := title
          description := description
          status := IssueStatus.OPEN
          created_by_id := creator_id
          created_at := now
          resolved_at := none }
      (some issue, { db with issues := db.issues ++ [issue] })

/-- crud.has_user_rated_project: a rating row already exists for the
triple (project, rater, rated user). -/
def has_user_rated_project (db : DB) (project_id rater_id rated_user_id : Nat) : Bool :=
  (db.ratings.find? (fun r =>
    decide (r.project_id = project_id) && decide (r.rater_id = rater_id) &&
      decide (r.rated_user_id = rated_user_id))).isSome

/-- Payload of schemas.RatingCreate. -/
structure RatingCreate where
  rater_id : Nat
  rated_user_id : Nat
  cooperation_attitude : ℚ
  demand_reasonableness : Option ℚ
  acceptance_difficulty : Option ℚ
  output_quality : Option ℚ
  execution_efficiency : Option ℚ
  comment : Option String
deriving DecidableEq

/-- crud.create_rating: insert the rating row for the given triple. -/
def create_rating (db : DB) (project_id rater_id rated_user_id : Nat)
    (rating : RatingCreate) (now : Int) (new_id : Nat) : Rating × DB :=
  let r : Rating :=
    { id := new_id
      rater_id := rater_id
      project_id := project_id
      rated_user_id := rated_user_id
      cooperation_attitude := rating.cooperation_attitude
      demand_reasonableness := rating.demand_reasonableness
      acceptance_difficulty := rating.acceptance_difficulty
      output_quality := rating.output_quality
      execution_efficiency := rating.execution_efficiency
      comment := rating.comment
      created_at := now }
  (r, { db with ratings := db.ratings ++ [r] })

/-- Router rate_user: 404 when the project is missing; 403 when the
project is not COMPLETED or the rater is neither client nor contractor;
400 when the rated user is not the other party; 409 on a duplicate
triple; otherwise the rating is created.  Python's membership test
rater_id in [client_id, contractor_id] compares an int against a possibly
missing contractor, which an int can never equal. -/
def rate_user (db : DB) (project_id : Nat) (rating : RatingCreate) (now : Int)
    (new_id : Nat) : Except ApiError (Rating × DB) :=
  match get_project db project_id with
  | none => Except.error ApiError.notFound
  | some project =>
    if project.status ≠ ProjectStatus.COMPLETED then
      Except.error ApiError.forbidden
    else if ¬ (rating.rater_id = project.client_id ∨
        some rating.rater_id = project.contractor_id) then
      Except.error ApiError.forbidden
    else if ¬ (rating.rated_user_id = project.client_id ∨
          some rating.rated_user_id = project.contractor_id) ∨
        rating.rated_user_id = rating.rater_id then
      Except.error ApiError.badRequest
    else if has_user_rated_project db project_id rating.rater_id rating.rated_user_id then
      Except.error ApiError.conflict
    else
      Except.ok (create_rating db project_id rating.rater_id rating.rated_user_id
        rating now new_id)

/-- Dimension columns of a rating row in the order crud.get_average_rating
reads them; cooperation_attitude is never missing. -/
def scoreList (r : Rating) : List (Option ℚ) :=
  [some r.cooperation_attitude, r.output_quality, r.execution_efficiency,
    r.demand_reasonableness, r.acceptance_difficulty]

/-- Non-null dimension values of a rating row. -/
def validScores (r : Rating) : List ℚ :=
  (scoreList r).filterMap id

/-- Round-half-to-even to the nearest integer over the rationals, the
behaviour of Python's builtin round on an exactly representable value. -/
def roundHalfToEven (x : ℚ) : ℤ :=
  let f := Int.floor x
  if x - f < 1 / 2 then f
  else if 1 / 2 < x - f then f + 1
  else if f % 2 = 0 then f else f + 1

/-- Python round(x, 1): round 10 * x half-to-even, divide by 10. -/
def pyRound1 (x : ℚ) : ℚ :=
  (roundHalfToEven (x * 10) : ℚ) / 10

/-- Rating rows received by one user, in storage order. -/
def ratingsReceived (db : DB) (user_id : Nat) : List Rating :=
  db.ratings.filter (fun r => decide (r.rated_user_id = user_id))

/-- crud.get_average_rating: with no received rating return average 0.0
and count 0; otherwise sum, over ratings having at least one non-null
dimension, the mean of the non-null dimensions, divide by the number of
such ratings, and round to one decimal place; the reported count is the
number of received ratings. -/
def get_average_rating (db : DB) (user_id : Nat) : ℚ × Nat :=
  let ratings := ratingsReceived db user_id
  if ratings.isEmpty then
    ((0 : ℚ), 0)
  else
    let acc := ratings.foldl (fun acc r =>
      let valid := validScores r
      if valid.isEmpty then acc
      else (acc.1 + valid.sum / (valid.length : ℚ), acc.2 + 1)) ((0 : ℚ), (0 : Nat))
    let final_average := if 0 < acc.2 then acc.1 / (acc.2 : ℚ) else 0
    (pyRound1 final_average, ratings.length)

/-! Concrete fixtures and iteration helpers used by the claim
theorems, their witnesses and their counterexamples. -/

/-- Project used by the C5 counterexample: OPEN with deadline 5. -/
def projC5 : Project :=
  { id := 1
    title := "t"
    description := "d"
    budget := none
    status := ProjectStatus.OPEN
    client_id := 1
    contractor_id := none
    created_at := 0
    updated_at := 0
    completed_at := none
    submission_file_url := none
    rejection_reason := none
    deadline := some 5 }

/-- Database with all tables empty. -/
def emptyDB : DB :=
  { projects := []
    proposals := []
    proposal_files := []
    submission_versions := []
    issues := []
    ratings := [] }

/-- Project used by the C1 counterexample: status OPEN, no issues. -/
def projC1 : Project :=
  { id := 1
    title := "t"
    description := "d"
    budget := none
    status := ProjectStatus.OPEN
    client_id := 1
    contractor_id := none
    created_at := 0
    updated_at := 0
    completed_at := none
    submission_file_url := none
    rejection_reason := none
    deadline := none }

/-- Database of the C1 counterexample. -/
def dbC1 : DB :=
  { emptyDB with projects := [projC1] }

/-- Project used by the C6 counterexample: status OPEN, never
SUBMITTED. -/
def projC6 : Project :=
  { id := 1
    title := "t"
    description := "d"
    budget := none
    status := ProjectStatus.OPEN
    client_id := 1
    contractor_id := none
    created_at := 0
    updated_at := 0
    completed_at := none
    submission_file_url := none
    rejection_reason := none
    deadline := none }

/-- Database of the C6 counterexample. -/
def dbC6 : DB :=
  { emptyDB with projects := [projC6] }

/-- Project used by the C4 counterexample: already SUBMITTED with
contractor 2 set. -/
def projC4 : Project :=
  { id := 1
    title := "t"
    description := "d"
    budget := none
    status := ProjectStatus.SUBMITTED
    client_id := 1
    contractor_id := some 2
    created_at := 0
    updated_at := 0
    completed_at := none
    submission_file_url := none
    rejection_reason := none
    deadline := none }

/-- Database of the C4 counterexample. -/
def dbC4 : DB :=
  { emptyDB with projects := [projC4] }

/-- Project used by the C9 witness: status SUBMITTED. -/
def projC9 : Project :=
  { id := 1
    title := "t"
    description := "d"
    budget := none
    status := ProjectStatus.SUBMITTED
    client_id := 1
    contractor_id := some 2
    created_at := 0
    updated_at := 0
    completed_at := none
    submission_file_url := none
    rejection_reason := none
    deadline := none }

/-- Database of the C9 witness. -/
def dbC9 : DB :=
  { emptyDB with projects := [projC9] }

/-- Issue produced by the C9 witness. -/
def issueC9 : Issue :=
  { id := 7
    project_id := 1
    title := "broken"
    description := none
    status := IssueStatus.OPEN
    created_by_id := 2
    created_at := 5
    resolved_at := none }

/-- Project used by claim C2: IN_PROGRESS with no cached locator. -/
def projC2 : Project :=
  { id := 1
    title := "t"
    description := "d"
    budget := none
    status := ProjectStatus.IN_PROGRESS
    client_id := 1
    contractor_id := some 2
    created_at := 0
    updated_at := 0
    completed_at := none
    submission_file_url := none
    rejection_reason := none
    deadline := none }

/-- Database used by claim C2. -/
def dbC2 : DB :=
  { emptyDB with projects := [projC2] }

/-- Submission-ledger row produced by claim C2's concrete submit. -/
def verC2 : SubmissionVersion :=
  { id := 9
    project_id := 1
    version := 1
    submit_url := "u"
    created_at := 7 }

/-- Project used by the C7 witness: COMPLETED, client 1, contractor 2. -/
def projC7 : Project :=
  { id := 1
    title := "t"
    description := "d"
    budget := none
    status := ProjectStatus.COMPLETED
    client_id := 1
    contractor_id := some 2
    created_at := 0
    updated_at := 0
    completed_at := some 5
    submission_file_url := none
    rejection_reason := none
    deadline := none }

/-- Database of the C7 witness. -/
def dbC7 : DB :=
  { emptyDB with projects := [projC7] }

/-- Rating payload of the C7 witness: the client rates the contractor. -/
def rcC7 : RatingCreate :=
  { rater_id := 1
    rated_user_id := 2
    cooperation_attitude := 5
    demand_reasonableness := none
    acceptance_difficulty := none
    output_quality := some 4
    execution_efficiency := none
    comment := none }

/-- Mean of the non-null dimension values of one rating. -/
def ratingMean (r : Rating) : ℚ :=
  (validScores r).sum / ((validScores r).length : ℚ)

/-- Modelled from the spec for comparison in C8: average the per-rating
dimension means across all received ratings (mean of means). -/
def specMeanOfMeans (rs : List Rating) : ℚ :=
  (rs.map ratingMean).sum / (rs.length : ℚ)

/-- Rating of the C8 witness with dimension mean 4. -/
def ratC8a : Rating :=
  { id := 1
    rater_id := 1
    project_id := 1
    rated_user_id := 7
    cooperation_attitude := 4
    demand_reasonableness := none
    acceptance_difficulty := none
    output_quality := none
    execution_efficiency := none
    comment := none
    created_at := 0 }

/-- Rating of the C8 witness with dimension mean 5. -/
def ratC8b : Rating :=
  { id := 2
    rater_id := 2
    project_id := 2
    rated_user_id := 7
    cooperation_attitude := 5
    demand_reasonableness := none
    acceptance_difficulty := none
    output_quality := some 5
    execution_efficiency := none
    comment := none
    created_at := 0 }

/-- Database of the C8 witness: user 7 received exactly the two
ratings. -/
def dbC8 : DB :=
  { emptyDB with ratings := [ratC8a, ratC8b] }

/-- Iterated submission-ledger appends for one project over a list of
(locator, timestamp, id) triples. -/
def appendSubs (db : DB) (pid : Nat) : List (String × Int × Nat) → DB
  | [] => db
  | (url, now, nid) :: rest =>
      appendSubs (add_submission_version db pid url now nid).2 pid rest

/-- Iterated proposal-file appends for one proposal over a list of
((original name, stored path), timestamp, id) tuples. -/
def appendFiles (db : DB) (prid : Nat) : List ((String × String) × Int × Nat) → DB
  | [] => db
  | ((ofn, sp), now, nid) :: rest =>
      appendFiles (add_proposal_file db prid ofn sp now nid).2 prid rest

instance : IsTotal SubmissionVersion subVerLe :=
  ⟨fun a b => Nat.le_total a.version b.version⟩

instance : IsTrans SubmissionVersion subVerLe :=
  ⟨fun _ _ _ => Nat.le_trans⟩

instance : IsTotal ProposalFile fileVerLe :=
  ⟨fun a b => Nat.le_total a.version b.version⟩

instance : IsTrans ProposalFile fileVerLe :=
  ⟨fun _ _ _ => Nat.le_trans⟩

/-! Helper lemmas. -/

/-- Mapping an id-preserving update over matching rows commutes with
looking a row up by id. -/
theorem find?_map_update (l : List Project) (pid : Nat) (f : Project → Project)
    (hf : ∀ p, (f p).id = p.id) :
    (l.map (fun p => if p.id = pid then f p else p)).find?
        (fun p => decide (p.id = pid))
      = (l.find? (fun p => decide (p.id = pid))).map f := by
  induction l with
  | nil => rfl
  | cons a l ih =>
    by_cases h : a.id = pid
    · rw [List.map_cons, if_pos h,
        List.find?_cons_of_pos _ (by simp [hf, h]),
        List.find?_cons_of_pos _ (by simp [h])]
      rfl
    · rw [List.map_cons, if_neg h,
        List.find?_cons_of_neg _ (by simp [h]),
        List.find?_cons_of_neg _ (by simp [h]), ih]

/-- Looking up the updated project after setProject returns the image of
the project found before, whenever the update keeps the id. -/
theorem get_project_setProject (db : DB) (pid : Nat) (f : Project → Project)
    (hf : ∀ p, (f p).id = p.id) :
    get_project (setProject db pid f) pid = (get_project db pid).map f := by
  unfold get_project setProject
  exact find?_map_update db.projects pid f hf

/-! Claim C5: the bidding window. -/

/-- C5 counterexample: at the deadline instant itself (now = deadline = 5,
so now ≤ deadline) the claim demands that bidding is still open, but the
code returns false, because it keeps bidding open only while
deadline > now holds strictly. -/
theorem C5_counterexample :
    projC5.status = ProjectStatus.OPEN ∧ projC5.deadline = some 5 ∧
      (5 : Int) ≤ 5 ∧ is_project_open_for_bidding projC5 5 = false := by
  decide

/-- C5 amended: is_project_open_for_bidding returns true iff the status
is OPEN and either no deadline is set or the current time is strictly
before the deadline; in particular it returns false for every project
whose status is not OPEN, and false for an OPEN project already at
now = deadline when a deadline is set. -/
theorem C5_bidding_window (p : Project) (now : Int) :
    is_project_open_for_bidding p now = true ↔
      (p.status = ProjectStatus.OPEN ∧
        (p.deadline = none ∨ ∃ d, p.deadline = some d ∧ now < d)) := by
  unfold is_project_open_for_bidding
  by_cases h : p.status = ProjectStatus.OPEN
  · cases hd : p.deadline with
    | none => simp [h, hd]
    | some d => simp [h, hd]
  · simp [h]

/-! Claim C9: issue creation is tied to the SUBMITTED inspection window. -/

/-- C9: create_issue returns none and leaves the database unchanged
unless the referenced project exists with status SUBMITTED; when it does,
the returned issue is attached to that project, carries status OPEN and
the creator, and is appended to the issues table. -/
theorem C9_create_issue (db : DB) (pid cid : Nat) (t : String) (d : Option String)
    (now : Int) (nid : Nat) :
    ((create_issue db pid cid t d now nid).1.isSome = true ↔
        ∃ p, get_project db pid = some p ∧ p.status = ProjectStatus.SUBMITTED)
    ∧ ((create_issue db pid cid t d now nid).1 = none →
        (create_issue db pid cid t d now nid).2 = db)
    ∧ (∀ i, (create_issue db pid cid t d now nid).1 = some i →
        i.project_id = pid ∧ i.status = IssueStatus.OPEN ∧ i.created_by_id = cid ∧
          (create_issue db pid cid t d now nid).2 =
            { db with issues := db.issues ++ [i] }) := by
  unfold create_issue
  cases hg : get_project db pid with
  | none => simp
  | some p =>
    by_cases hs : p.status = ProjectStatus.SUBMITTED
    · refine ⟨by simp [hs], by simp [hs], ?_⟩
      intro i hi
      simp [hs] at hi
      subst hi
      simp [hs]
    · simp [hs]

/-! Claim C1: the accept guard. -/

/-- C1 counterexample: a project whose status is OPEN, never SUBMITTED,
with no issue at all, is accepted successfully and becomes COMPLETED with
a completion timestamp, so accept() is not permitted only while the
status is SUBMITTED. -/
theorem C1_counterexample :
    (get_project dbC1 1).map Project.status = some ProjectStatus.OPEN ∧
      accept_project_api dbC1 1 3 =
        Except.ok
          ({ projC1 with
              status := ProjectStatus.COMPLETED
              completed_at := some 3
              updated_at := 3 },
            { dbC1 with
              projects := [{ projC1 with
                status := ProjectStatus.COMPLETED
                completed_at := some 3
                updated_at := 3 }] }) := by
  decide

/-- C1 amended: accept() is guarded only by the open-issue check, not by
the SUBMITTED status.  It fails, with the database untouched, whenever at
least one OPEN issue exists for the project, regardless of how many
RESOLVED issues exist; when no OPEN issue exists it sets the status to
COMPLETED and sets the completion timestamp for any existing project,
whatever its current status. -/
theorem C1_accept_amended (db : DB) (pid : Nat) (now : Int) :
    (has_open_issues db pid = true ↔
        ∃ i ∈ db.issues, i.project_id = pid ∧ i.status = IssueStatus.OPEN)
    ∧ (has_open_issues db pid = true →
        accept_project_api db pid now = Except.error ApiError.badRequest)
    ∧ (has_open_issues db pid = false → ∀ p, get_project db pid = some p →
        accept_project_api db pid now =
          Except.ok
            ({ p with
                status := ProjectStatus.COMPLETED
                completed_at := some now
                updated_at := now },
              setProject db pid (fun q =>
                { q with
                  status := ProjectStatus.COMPLETED
                  completed_at := some now
                  updated_at := now }))) := by
  refine ⟨?_, ?_, ?_⟩
  · unfold has_open_issues
    rw [decide_eq_true_eq]
    rw [List.length_pos]
    constructor
    · intro h
      obtain ⟨i, hi⟩ := List.exists_mem_of_ne_nil _ h
      have := List.mem_filter.mp hi
      refine ⟨i, this.1, ?_⟩
      have h2 := this.2
      simp only [Bool.and_eq_true, decide_eq_true_eq] at h2
      exact h2
    · intro ⟨i, hmem, h1, h2⟩
      intro hnil
      have : i ∈ (db.issues.filter (fun i =>
          decide (i.project_id = pid) && decide (i.status = IssueStatus.OPEN))) := by
        rw [List.mem_filter]
        exact ⟨hmem, by simp [h1, h2]⟩
      rw [hnil] at this
      exact (List.not_mem_nil i) this
  · intro h
    unfold accept_project_api
    rw [if_pos h]
  · intro h p hp
    have hget := get_project_setProject db pid (fun q =>
      { q with
        status := ProjectStatus.COMPLETED
        completed_at := some now
        updated_at := now }) (fun q => rfl)
    unfold accept_project_api
    rw [if_neg (by simp [h])]
    unfold accept_project
    simp only [hp, hget, Option.map_some']

/-- C1 witness: on the concrete open-issue-free database the amended
statement yields a successful acceptance. -/
theorem C1_witness :
    accept_project_api dbC1 1 3 =
      Except.ok
        ({ projC1 with
            status := ProjectStatus.COMPLETED
            completed_at := some 3
            updated_at := 3 },
          setProject dbC1 1 (fun q =>
            { q with
              status := ProjectStatus.COMPLETED
              completed_at := some (3 : Int)
              updated_at := 3 })) :=
  (C1_accept_amended dbC1 1 3).2.2 (by decide) projC1 (by decide)

/-! Claim C6: the reject guard. -/

/-- C6 counterexample: reject succeeds on a project whose status is OPEN,
not SUBMITTED, so reject(reason) is not permitted only while the status
is SUBMITTED. -/
theorem C6_counterexample :
    (get_project dbC6 1).map Project.status = some ProjectStatus.OPEN ∧
      reject_project_api dbC6 1 "late" 2 =
        Except.ok
          ({ projC6 with
              status := ProjectStatus.REJECTED
              rejection_reason := some "late"
              updated_at := 2 },
            { dbC6 with
              projects := [{ projC6 with
                status := ProjectStatus.REJECTED
                rejection_reason := some "late"
                updated_at := 2 }] }) := by
  decide

/-- C6 amended: reject(reason) succeeds for every existing project
regardless of its current status, there being no SUBMITTED guard; on
success it sets the status to REJECTED and stores the given rejection
reason on the project; it fails only when the project does not exist. -/
theorem C6_reject_amended (db : DB) (pid : Nat) (reason : String) (now : Int) :
    (get_project db pid = none →
        reject_project_api db pid reason now = Except.error ApiError.notFound)
    ∧ (∀ p, get_project db pid = some p →
        reject_project_api db pid reason now =
          Except.ok
            ({ p with
                status := ProjectStatus.REJECTED
                rejection_reason := some reason
                updated_at := now },
              setProject db pid (fun q =>
                { q with
                  status := ProjectStatus.REJECTED
                  rejection_reason := some reason
                  updated_at := now }))) := by
  constructor
  · intro h
    unfold reject_project_api reject_project
    rw [h]
  · intro p hp
    have hget := get_project_setProject db pid (fun q =>
      { q with
        status := ProjectStatus.REJECTED
        rejection_reason := some reason
        updated_at := now }) (fun q => rfl)
    unfold reject_project_api reject_project
    simp only [hp, hget, Option.map_some']

/-- C6 witness: the amended theorem applied to the concrete OPEN
project. -/
theorem C6_witness :
    reject_project_api dbC6 1 "late" 2 =
      Except.ok
        ({ projC6 with
            status := ProjectStatus.REJECTED
            rejection_reason := some "late"
            updated_at := 2 },
          setProject dbC6 1 (fun q =>
            { q with
              status := ProjectStatus.REJECTED
              rejection_reason := some "late"
              updated_at := (2 : Int) })) :=
  (C6_reject_amended dbC6 1 "late" 2).2 projC6 (by decide)

/-! Claim C4: the contractor reference. -/

/-- C4 counterexample: selectContractor succeeds on a SUBMITTED project
whose contractor is already 2 and overwrites the reference with 3, so the
operation is neither permitted only while the project is OPEN nor does it
set the contractor exactly once, and the reference does change after
being set. -/
theorem C4_counterexample :
    (get_project dbC4 1).map Project.status = some ProjectStatus.SUBMITTED ∧
      (get_project dbC4 1).map Project.contractor_id = some (some 2) ∧
      select_contractor_api dbC4 1 3 4 =
        Except.ok
          ({ projC4 with
              contractor_id := some 3
              status := ProjectStatus.IN_PROGRESS
              updated_at := 4 },
            { dbC4 with
              projects := [{ projC4 with
                contractor_id := some 3
                status := ProjectStatus.IN_PROGRESS
                updated_at := 4 }] }) := by
  decide

/-- C4 amended: a newly created project has a null contractor reference
and status OPEN; selectContractor sets the reference and moves the
project to IN_PROGRESS, but it is permitted for every existing project
regardless of status, and each call overwrites whatever reference was
there before, so the reference is not immutable once set. -/
theorem C4_select_amended (db : DB) (pid cid : Nat) (now : Int) (t d : String)
    (b : Option ℚ) (dl : Option Int) (cl : Nat) (nid : Nat) :
    ((create_project db t d b dl cl now nid).1.contractor_id = none ∧
      (create_project db t d b dl cl now nid).1.status = ProjectStatus.OPEN)
    ∧ (∀ p, get_project db pid = some p →
        select_contractor_api db pid cid now =
          Except.ok
            ({ p with
                contractor_id := some cid
                status := ProjectStatus.IN_PROGRESS
                updated_at := now },
              setProject db pid (fun q =>
                { q with
                  contractor_id := some cid
                  status := ProjectStatus.IN_PROGRESS
                  updated_at := now })))
    ∧ (get_project db pid = none →
        select_contractor_api db pid cid now = Except.error ApiError.notFound) := by
  refine ⟨⟨rfl, rfl⟩, ?_, ?_⟩
  · intro p hp
    have hget := get_project_setProject db pid (fun q =>
      { q with
        contractor_id := some cid
        status := ProjectStatus.IN_PROGRESS
        updated_at := now }) (fun q => rfl)
    unfold select_contractor_api select_contractor
    simp only [hp, hget, Option.map_some']
  · intro h
    unfold select_contractor_api select_contractor
    rw [h]

/-- C4 witness: the amended theorem applied to the concrete SUBMITTED
project with contractor 2, selecting contractor 3. -/
theorem C4_witness :
    select_contractor_api dbC4 1 3 4 =
      Except.ok
        ({ projC4 with
            contractor_id := some 3
            status := ProjectStatus.IN_PROGRESS
            updated_at := 4 },
          setProject dbC4 1 (fun q =>
            { q with
              contractor_id := some 3
              status := ProjectStatus.IN_PROGRESS
              updated_at := (4 : Int) })) :=
  (C4_select_amended dbC4 1 3 4 "t" "d" none none 1 9).2.1 projC4 (by decide)

/-- C5 witness: strictly before the deadline the amended theorem shows
the OPEN project is open for bidding. -/
theorem C5_witness :
    is_project_open_for_bidding projC5 4 = true :=
  (C5_bidding_window projC5 4).mpr ⟨rfl, Or.inr ⟨5, rfl, by decide⟩⟩

/-- C9 witness: on the concrete SUBMITTED project the theorem yields an
OPEN issue attached to the project. -/
theorem C9_witness :
    issueC9.project_id = 1 ∧ issueC9.status = IssueStatus.OPEN ∧
      issueC9.created_by_id = 2 ∧
      (create_issue dbC9 1 2 "broken" none 5 7).2 =
        { dbC9 with issues := dbC9.issues ++ [issueC9] } :=
  (C9_create_issue dbC9 1 2 "broken" none 5 7).2.2 issueC9 (by decide)

/-! Claim C2: the submit transition. -/

/-- C2 counterexample: on an IN_PROGRESS project the submit succeeds,
sets SUBMITTED, appends the ledger row, but the resulting project's
cached submission_file_url is still none, not the submitted locator, so
the claimed caching step does not happen. -/
theorem C2_counterexample :
    submit_project_api dbC2 1 "u" 7 9 =
      Except.ok
        ({ projC2 with status := ProjectStatus.SUBMITTED, updated_at := 7 },
          { dbC2 with
            projects := [{ projC2 with
              status := ProjectStatus.SUBMITTED
              updated_at := 7 }]
            submission_versions := [verC2] }) ∧
      ({ projC2 with
          status := ProjectStatus.SUBMITTED
          updated_at := (7 : Int) }).submission_file_url ≠ some "u" := by
  decide

/-- Lemma: looking a project up is unaffected by appending a
submission-ledger row. -/
theorem get_project_add_submission_version (db : DB) (pid pid2 : Nat) (url : String)
    (now : Int) (nid : Nat) :
    get_project (add_submission_version db pid url now nid).2 pid2 = get_project db pid2 :=
  rfl

/-- Lemma: the submit endpoint 404s when the project does not exist. -/
theorem submit_project_api_notFound (db : DB) (pid : Nat) (loc : String) (now : Int)
    (nid : Nat) (hg : get_project db pid = none) :
    submit_project_api db pid loc now nid = Except.error ApiError.notFound := by
  unfold submit_project_api
  rw [hg]

/-- Lemma: the submit endpoint rejects a project whose status is neither
IN_PROGRESS nor REJECTED. -/
theorem submit_project_api_invalid (db : DB) (pid : Nat) (loc : String) (now : Int)
    (nid : Nat) (p : Project) (hg : get_project db pid = some p)
    (hs : ¬ (p.status = ProjectStatus.IN_PROGRESS ∨ p.status = ProjectStatus.REJECTED)) :
    submit_project_api db pid loc now nid = Except.error ApiError.invalidState := by
  simp only [submit_project_api, hg]
  rw [if_pos hs]

/-- Lemma: the exact successful shape of the submit endpoint on a project
whose status admits submission. -/
theorem submit_project_api_ok (db : DB) (pid : Nat) (loc : String) (now : Int)
    (nid : Nat) (p : Project) (hp : get_project db pid = some p)
    (hs : p.status = ProjectStatus.IN_PROGRESS ∨ p.status = ProjectStatus.REJECTED) :
    submit_project_api db pid loc now nid =
      Except.ok
        ({ p with status := ProjectStatus.SUBMITTED, updated_at := now },
          (add_submission_version
            (setProject db pid (fun r =>
              { r with status := ProjectStatus.SUBMITTED, updated_at := now }))
            pid loc now nid).2) := by
  have hget := get_project_setProject db pid (fun r =>
    { r with status := ProjectStatus.SUBMITTED, updated_at := now }) (fun r => rfl)
  unfold submit_project_api submit_project
  simp only [hp]
  rw [if_neg (not_not_intro hs)]
  simp only [get_project_add_submission_version, hget, hp, Option.map_some']

/-- C2 amended: submit(fileLocator) succeeds exactly when the project
exists with status IN_PROGRESS or REJECTED, failing with InvalidState on
an existing project in any other status; on success it sets the status to
SUBMITTED, appends a version record carrying the locator to the
submission ledger (at version max-of-existing + 1), and updates the
project's updated timestamp, but it does not cache the locator on the
project: submission_file_url is left unchanged. -/
theorem C2_submit_amended (db : DB) (pid : Nat) (loc : String) (now : Int) (nid : Nat) :
    ((∃ q db', submit_project_api db pid loc now nid = Except.ok (q, db')) ↔
        ∃ p, get_project db pid = some p ∧
          (p.status = ProjectStatus.IN_PROGRESS ∨ p.status = ProjectStatus.REJECTED))
    ∧ (∀ p, get_project db pid = some p →
        ¬ (p.status = ProjectStatus.IN_PROGRESS ∨ p.status = ProjectStatus.REJECTED) →
        submit_project_api db pid loc now nid = Except.error ApiError.invalidState)
    ∧ (∀ p, get_project db pid = some p →
        (p.status = ProjectStatus.IN_PROGRESS ∨ p.status = ProjectStatus.REJECTED) →
        ∀ q db', submit_project_api db pid loc now nid = Except.ok (q, db') →
          q = { p with status := ProjectStatus.SUBMITTED, updated_at := now } ∧
            q.submission_file_url = p.submission_file_url ∧
            db'.submission_versions = db.submission_versions ++
              [{ id := nid
                 project_id := pid
                 version := maxVersion (versionsFor db pid) + 1
                 submit_url := loc
                 created_at := now }] ∧
            db'.projects = (setProject db pid (fun r =>
              { r with status := ProjectStatus.SUBMITTED, updated_at := now })).projects) := by
  refine ⟨⟨?_, ?_⟩, ?_, ?_⟩
  · intro ⟨q, db', h⟩
    cases hg : get_project db pid with
    | none =>
      rw [submit_project_api_notFound db pid loc now nid hg] at h
      exact absurd h (by simp)
    | some p =>
      by_cases hs : p.status = ProjectStatus.IN_PROGRESS ∨ p.status = ProjectStatus.REJECTED
      · exact ⟨p, rfl, hs⟩
      · rw [submit_project_api_invalid db pid loc now nid p hg hs] at h
        exact absurd h (by simp)
  · intro ⟨p, hp, hs⟩
    exact ⟨_, _, submit_project_api_ok db pid loc now nid p hp hs⟩
  · intro p hp hs
    exact submit_project_api_invalid db pid loc now nid p hp hs
  · intro p hp hs q db' h
    rw [submit_project_api_ok db pid loc now nid p hp hs] at h
    injection h with h
    injection h with hq hdb
    subst hq
    subst hdb
    exact ⟨rfl, rfl, rfl, rfl⟩

/-- C2 witness: the amended theorem applied to the concrete IN_PROGRESS
project, with the resulting project and database evaluated. -/
theorem C2_witness :
    ({ projC2 with status := ProjectStatus.SUBMITTED, updated_at := (7 : Int) } :
        Project) =
      { projC2 with status := ProjectStatus.SUBMITTED, updated_at := 7 } ∧
      ({ projC2 with status := ProjectStatus.SUBMITTED, updated_at := (7 : Int) } :
          Project).submission_file_url = projC2.submission_file_url ∧
      ({ dbC2 with
          projects := [{ projC2 with
            status := ProjectStatus.SUBMITTED
            updated_at := 7 }]
          submission_versions := [verC2] }).submission_versions =
        dbC2.submission_versions ++
          [{ id := 9
             project_id := 1
             version := maxVersion (versionsFor dbC2 1) + 1
             submit_url := "u"
             created_at := 7 }] ∧
      ({ dbC2 with
          projects := [{ projC2 with
            status := ProjectStatus.SUBMITTED
            updated_at := 7 }]
          submission_versions := [verC2] }).projects =
        (setProject dbC2 1 (fun r =>
          { r with status := ProjectStatus.SUBMITTED, updated_at := (7 : Int) })).projects :=
  (C2_submit_amended dbC2 1 "u" 7 9).2.2 projC2 (by decide) (by decide)
    { projC2 with status := ProjectStatus.SUBMITTED, updated_at := 7 }
    { dbC2 with
      projects := [{ projC2 with
        status := ProjectStatus.SUBMITTED
        updated_at := 7 }]
      submission_versions := [verC2] }
    (by decide)

/-! Claim C10: the frame of reject_project. -/

/-- Lemma: an id-filtered row update relates every original row to its
updated image. -/
theorem forall2_setProject (l : List Project) (R : Project → Project → Prop)
    (pid : Nat) (f : Project → Project)
    (h1 : ∀ p, R p p) (h2 : ∀ p, p.id = pid → R p (f p)) :
    List.Forall₂ R l (l.map (fun p => if p.id = pid then f p else p)) := by
  induction l with
  | nil => exact List.Forall₂.nil
  | cons a l ih =>
    rw [List.map_cons]
    by_cases h : a.id = pid
    · rw [if_pos h]
      exact List.Forall₂.cons (h2 a h) ih
    · rw [if_neg h]
      exact List.Forall₂.cons (h1 a) ih

/-- C10: reject_project leaves the proposals, proposal-file,
submission-version, issue and rating tables untouched, and every project
row is either unchanged or, when it is the rejected project, changed in
exactly the status, the rejection_reason and the automatically maintained
updated_at field; in particular submission_file_url, contractor_id,
client_id, completed_at and deadline are all preserved and the cached
latest-submission locator is not cleared on rejection. -/
theorem C10_reject_frame (db : DB) (pid : Nat) (reason : String) (now : Int) :
    ((reject_project db pid reason now).2.proposals = db.proposals)
    ∧ ((reject_project db pid reason now).2.proposal_files = db.proposal_files)
    ∧ ((reject_project db pid reason now).2.submission_versions = db.submission_versions)
    ∧ ((reject_project db pid reason now).2.issues = db.issues)
    ∧ ((reject_project db pid reason now).2.ratings = db.ratings)
    ∧ List.Forall₂ (fun p q => q = p ∨ (p.id = pid ∧ q =
        { p with
          status := ProjectStatus.REJECTED
          rejection_reason := some reason
          updated_at := now }))
        db.projects (reject_project db pid reason now).2.projects := by
  unfold reject_project
  cases hg : get_project db pid with
  | none =>
    refine ⟨rfl, rfl, rfl, rfl, rfl, ?_⟩
    exact List.forall₂_same.2 (fun p _ => Or.inl rfl)
  | some p =>
    refine ⟨rfl, rfl, rfl, rfl, rfl, ?_⟩
    exact forall2_setProject db.projects _ pid _ (fun r => Or.inl rfl)
      (fun r hr => Or.inr ⟨hr, rfl⟩)

/-! Claim C7: rating eligibility. -/

/-- Lemma: the exact successful shape of the rating endpoint when every
guard passes. -/
theorem rate_user_ok (db : DB) (pid : Nat) (rc : RatingCreate) (now : Int) (nid : Nat)
    (p : Project) (hg : get_project db pid = some p)
    (h1 : p.status = ProjectStatus.COMPLETED)
    (h2 : rc.rater_id = p.client_id ∨ some rc.rater_id = p.contractor_id)
    (h3m : rc.rated_user_id = p.client_id ∨ some rc.rated_user_id = p.contractor_id)
    (h3n : rc.rated_user_id ≠ rc.rater_id)
    (h4 : has_user_rated_project db pid rc.rater_id rc.rated_user_id = false) :
    rate_user db pid rc now nid =
      Except.ok (create_rating db pid rc.rater_id rc.rated_user_id rc now nid) := by
  simp only [rate_user, hg]
  rw [if_neg (not_not_intro h1), if_neg (not_not_intro h2),
    if_neg (fun hc => hc.elim (fun hn => hn h3m) h3n), if_neg (by simp [h4])]

/-- C7: the rating endpoint succeeds exactly when the project exists with
status COMPLETED, the rater is the project's client or contractor, the
rated user is one of those two parties and differs from the rater (hence
is the other party), and no rating for the triple exists yet; under those
conditions it creates the rating row for the triple, and with everything
eligible except that the triple already exists it fails with Conflict. -/
theorem C7_rate_user (db : DB) (pid : Nat) (rc : RatingCreate) (now : Int) (nid : Nat) :
    ((∃ r db', rate_user db pid rc now nid = Except.ok (r, db')) ↔
        ∃ p, get_project db pid = some p ∧
          p.status = ProjectStatus.COMPLETED ∧
          (rc.rater_id = p.client_id ∨ some rc.rater_id = p.contractor_id) ∧
          (rc.rated_user_id = p.client_id ∨ some rc.rated_user_id = p.contractor_id) ∧
          rc.rated_user_id ≠ rc.rater_id ∧
          has_user_rated_project db pid rc.rater_id rc.rated_user_id = false)
    ∧ (∀ p, get_project db pid = some p →
        p.status = ProjectStatus.COMPLETED →
        (rc.rater_id = p.client_id ∨ some rc.rater_id = p.contractor_id) →
        (rc.rated_user_id = p.client_id ∨ some rc.rated_user_id = p.contractor_id) →
        rc.rated_user_id ≠ rc.rater_id →
        has_user_rated_project db pid rc.rater_id rc.rated_user_id = false →
        rate_user db pid rc now nid =
          Except.ok (create_rating db pid rc.rater_id rc.rated_user_id rc now nid))
    ∧ ((create_rating db pid rc.rater_id rc.rated_user_id rc now nid).1.project_id = pid ∧
        (create_rating db pid rc.rater_id rc.rated_user_id rc now nid).1.rater_id =
          rc.rater_id ∧
        (create_rating db pid rc.rater_id rc.rated_user_id rc now nid).1.rated_user_id =
          rc.rated_user_id ∧
        (create_rating db pid rc.rater_id rc.rated_user_id rc now nid).2 =
          { db with ratings := db.ratings ++
            [(create_rating db pid rc.rater_id rc.rated_user_id rc now nid).1] })
    ∧ (∀ p, get_project db pid = some p →
        p.status = ProjectStatus.COMPLETED →
        (rc.rater_id = p.client_id ∨ some rc.rater_id = p.contractor_id) →
        (rc.rated_user_id = p.client_id ∨ some rc.rated_user_id = p.contractor_id) →
        rc.rated_user_id ≠ rc.rater_id →
        has_user_rated_project db pid rc.rater_id rc.rated_user_id = true →
        rate_user db pid rc now nid = Except.error ApiError.conflict) := by
  refine ⟨⟨?_, ?_⟩, ?_, ⟨rfl, rfl, rfl, rfl⟩, ?_⟩
  · intro ⟨r, db', h⟩
    cases hg : get_project db pid with
    | none =>
      simp only [rate_user, hg] at h
      exact absurd h (by simp)
    | some p =>
      by_cases h1 : p.status = ProjectStatus.COMPLETED
      · by_cases h2 : rc.rater_id = p.client_id ∨ some rc.rater_id = p.contractor_id
        · by_cases h3 : ¬ (rc.rated_user_id = p.client_id ∨
              some rc.rated_user_id = p.contractor_id) ∨ rc.rated_user_id = rc.rater_id
          · simp only [rate_user, hg] at h
            rw [if_neg (not_not_intro h1), if_neg (not_not_intro h2), if_pos h3] at h
            exact absurd h (by simp)
          · rw [not_or, not_not] at h3
            by_cases h4 : has_user_rated_project db pid rc.rater_id rc.rated_user_id = true
            · simp only [rate_user, hg] at h
              rw [if_neg (not_not_intro h1), if_neg (not_not_intro h2),
                if_neg (fun hc => hc.elim (fun hn => hn h3.1) h3.2), if_pos h4] at h
              exact absurd h (by simp)
            · rw [Bool.not_eq_true] at h4
              exact ⟨p, rfl, h1, h2, h3.1, h3.2, h4⟩
        · simp only [rate_user, hg] at h
          rw [if_neg (not_not_intro h1), if_pos h2] at h
          exact absurd h (by simp)
      · simp only [rate_user, hg] at h
        rw [if_pos h1] at h
        exact absurd h (by simp)
  · intro ⟨p, hg, h1, h2, h3m, h3n, h4⟩
    exact ⟨_, _, rate_user_ok db pid rc now nid p hg h1 h2 h3m h3n h4⟩
  · intro p hg h1 h2 h3m h3n h4
    exact rate_user_ok db pid rc now nid p hg h1 h2 h3m h3n h4
  · intro p hg h1 h2 h3m h3n h4
    simp only [rate_user, hg]
    rw [if_neg (not_not_intro h1), if_neg (not_not_intro h2),
      if_neg (fun hc => hc.elim (fun hn => hn h3m) h3n), if_pos h4]

/-- C7 witness: on the concrete COMPLETED project, the client rating the
contractor for the first time succeeds and creates the rating row. -/
theorem C7_witness :
    rate_user dbC7 1 rcC7 6 9 =
      Except.ok (create_rating dbC7 1 rcC7.rater_id rcC7.rated_user_id rcC7 6 9) :=
  (C7_rate_user dbC7 1 rcC7 6 9).2.1 projC7 (by decide) (by decide) (by decide)
    (by decide) (by decide) (by decide)

/-! Claim C8: the average rating is a rounded mean of per-rating means. -/

/-- Lemma: a rating always has at least one non-null dimension value,
because the cooperation_attitude column is not nullable. -/
theorem validScores_ne_nil (r : Rating) : (validScores r).isEmpty = false := by
  simp [validScores, scoreList]

/-- Lemma: the accumulation loop of get_average_rating sums the
per-rating means and counts the ratings. -/
theorem rating_foldl (rs : List Rating) (a : ℚ) (c : Nat) :
    rs.foldl (fun acc r =>
      let valid := validScores r
      if valid.isEmpty then acc
      else (acc.1 + valid.sum / ((valid.length : Nat) : ℚ), acc.2 + 1)) (a, c) =
      (a + (rs.map ratingMean).sum, c + rs.length) := by
  induction rs generalizing a c with
  | nil => simp
  | cons r rs ih =>
    simp only [List.foldl_cons, validScores_ne_nil r, Bool.false_eq_true, if_false, ih,
      List.map_cons, List.sum_cons, List.length_cons, ratingMean]
    rw [Prod.mk.injEq]
    exact ⟨by ring, by omega⟩

/-- C8: averageRating returns average 0 and count 0 when the user has no
received rating; otherwise it returns the per-rating dimension means
averaged across all received ratings (mean of means), rounded to one
decimal place, together with the number of received ratings. -/
theorem C8_average (db : DB) (uid : Nat) :
    (ratingsReceived db uid = [] → get_average_rating db uid = (0, 0))
    ∧ (ratingsReceived db uid ≠ [] →
        get_average_rating db uid =
          (pyRound1 (specMeanOfMeans (ratingsReceived db uid)),
            (ratingsReceived db uid).length)) := by
  constructor
  · intro h
    simp [get_average_rating, h]
  · intro h
    have hne : (ratingsReceived db uid).isEmpty = false := by
      rw [List.isEmpty_eq_false]
      exact h
    have hlen : 0 < (ratingsReceived db uid).length := List.length_pos.mpr h
    unfold get_average_rating
    simp only [hne, Bool.false_eq_true, if_false, rating_foldl, Nat.zero_add, zero_add,
      specMeanOfMeans]
    rw [if_pos hlen]

/-- C8 witness: a user with two received ratings whose per-rating
dimension means are 4 and 5 has average 9 / 2 = 4.5 and count 2
(mean of means, not the flattened mean 14 / 3 of the raw values). -/
theorem C8_witness :
    get_average_rating dbC8 7 = (9 / 2, 2) := by
  have hrr : ratingsReceived dbC8 7 = [ratC8a, ratC8b] := by
    simp [ratingsReceived, dbC8, emptyDB, ratC8a, ratC8b]
  have h := (C8_average dbC8 7).2 (by rw [hrr]; simp)
  rw [h, hrr]
  have hm : specMeanOfMeans [ratC8a, ratC8b] = 9 / 2 := by
    norm_num [specMeanOfMeans, ratingMean, validScores, scoreList, ratC8a, ratC8b,
      List.filterMap_cons]
  rw [hm]
  have hp : pyRound1 ((9 : ℚ) / 2) = 9 / 2 := by
    have h45 : ((9 : ℚ) / 2) * 10 = 45 := by norm_num
    have hf : Int.floor ((45 : ℚ)) = 45 := by norm_num
    unfold pyRound1 roundHalfToEven
    rw [h45, hf]
    norm_num
  rw [hp]
  rfl

/-! Claim C3: the version ledger is monotonic, gap-free and read back in
ascending order. -/

/-- Lemma: the largest element of the contiguous block starting at s of
length n, folded with max over 0. -/
theorem foldr_max_range' (s n : Nat) :
    List.foldr max 0 (List.range' s n) = if n = 0 then 0 else s + n - 1 := by
  induction n generalizing s with
  | zero => rfl
  | succ n ih =>
    rw [List.range'_succ s n 1, List.foldr_cons, ih (s + 1)]
    by_cases h : n = 0
    · subst h
      simp
    · rw [if_neg h, if_neg (Nat.succ_ne_zero n)]
      omega

/-- Lemma: the contiguous block from 1 grows by appending the next
number. -/
theorem range'_one_concat (k : Nat) :
    List.range' 1 (k + 1) = List.range' 1 k ++ [k + 1] := by
  simpa [Nat.add_comm] using @List.range'_concat 1 1 k

/-- Lemma: when a ledger holds exactly the versions 1..k, the maximum
version found by the descending-order lookup is k. -/
theorem maxVersion_of_range (vs : List SubmissionVersion) (k : Nat)
    (h : vs.map SubmissionVersion.version = List.range' 1 k) :
    maxVersion vs = k := by
  have h1 : List.foldr max 0 (vs.map SubmissionVersion.version) = maxVersion vs := by
    rw [List.foldr_map]
    rfl
  rw [← h1, h, foldr_max_range']
  by_cases hk : k = 0
  · simp [hk]
  · rw [if_neg hk]
    omega

/-- Lemma: appending a submission version extends exactly the ledger of
its own project. -/
theorem versionsFor_add (db : DB) (pid : Nat) (url : String) (now : Int) (nid : Nat) :
    versionsFor (add_submission_version db pid url now nid).2 pid =
      versionsFor db pid ++ [(add_submission_version db pid url now nid).1] := by
  unfold versionsFor add_submission_version
  rw [List.filter_append]
  simp

/-- Lemma: starting from a ledger holding exactly the versions 1..k, a
sequence of appends yields exactly the versions 1..k+n, in insertion
order. -/
theorem appendSubs_range (db : DB) (pid : Nat) (items : List (String × Int × Nat))
    (k : Nat)
    (h : (versionsFor db pid).map SubmissionVersion.version = List.range' 1 k) :
    (versionsFor (appendSubs db pid items) pid).map SubmissionVersion.version =
      List.range' 1 (k + items.length) := by
  induction items generalizing db k with
  | nil => simpa using h
  | cons it rest ih =>
    obtain ⟨url, now, nid⟩ := it
    have hv : (add_submission_version db pid url now nid).1.version = k + 1 := by
      have hm := maxVersion_of_range (versionsFor db pid) k h
      simp [add_submission_version, hm]
    have hstep : (versionsFor (add_submission_version db pid url now nid).2 pid).map
        SubmissionVersion.version = List.range' 1 (k + 1) := by
      rw [versionsFor_add, List.map_append, h, range'_one_concat]
      simp [hv]
    have hrec := ih (add_submission_version db pid url now nid).2 (k + 1) hstep
    rw [appendSubs, hrec]
    congr 1
    simp
    omega

/-- Lemma: a ledger holding exactly the versions 1..n in order is sorted
by version. -/
theorem sorted_of_map_range (vs : List SubmissionVersion) (n : Nat)
    (h : vs.map SubmissionVersion.version = List.range' 1 n) :
    List.Sorted subVerLe vs := by
  have hp : List.Pairwise (· ≤ ·) (vs.map SubmissionVersion.version) := by
    rw [h]
    exact (List.pairwise_lt_range' 1 n 1 (by omega)).imp Nat.le_of_lt
  rw [List.pairwise_map] at hp
  exact hp

/-- Lemma: the parallel fact for the proposal-file ledger: when it holds
exactly the versions 1..k, the descending-order lookup finds k. -/
theorem maxFileVersion_of_range (fs : List ProposalFile) (k : Nat)
    (h : fs.map ProposalFile.version = List.range' 1 k) :
    maxFileVersion fs = k := by
  have h1 : List.foldr max 0 (fs.map ProposalFile.version) = maxFileVersion fs := by
    rw [List.foldr_map]
    rfl
  rw [← h1, h, foldr_max_range']
  by_cases hk : k = 0
  · simp [hk]
  · rw [if_neg hk]
    omega

/-- Lemma: appending a proposal file extends exactly the ledger of its
own proposal. -/
theorem filesFor_add (db : DB) (prid : Nat) (ofn sp : String) (now : Int) (nid : Nat) :
    proposalFilesFor (add_proposal_file db prid ofn sp now nid).2 prid =
      proposalFilesFor db prid ++ [(add_proposal_file db prid ofn sp now nid).1] := by
  unfold proposalFilesFor add_proposal_file
  rw [List.filter_append]
  simp

/-- Lemma: the proposal-file analogue of appendSubs_range. -/
theorem appendFiles_range (db : DB) (prid : Nat)
    (items : List ((String × String) × Int × Nat)) (k : Nat)
    (h : (proposalFilesFor db prid).map ProposalFile.version = List.range' 1 k) :
    (proposalFilesFor (appendFiles db prid items) prid).map ProposalFile.version =
      List.range' 1 (k + items.length) := by
  induction items generalizing db k with
  | nil => simpa using h
  | cons it rest ih =>
    obtain ⟨⟨ofn, sp⟩, now, nid⟩ := it
    have hv : (add_proposal_file db prid ofn sp now nid).1.version = k + 1 := by
      have hm := maxFileVersion_of_range (proposalFilesFor db prid) k h
      simp [add_proposal_file, hm]
    have hstep : (proposalFilesFor (add_proposal_file db prid ofn sp now nid).2 prid).map
        ProposalFile.version = List.range' 1 (k + 1) := by
      rw [filesFor_add, List.map_append, h, range'_one_concat]
      simp [hv]
    have hrec := ih (add_proposal_file db prid ofn sp now nid).2 (k + 1) hstep
    rw [appendFiles, hrec]
    congr 1
    simp
    omega

/-- Lemma: a proposal-file ledger holding exactly the versions 1..n in
order is sorted by version. -/
theorem sorted_of_map_range_file (fs : List ProposalFile) (n : Nat)
    (h : fs.map ProposalFile.version = List.range' 1 n) :
    List.Sorted fileVerLe fs := by
  have hp : List.Pairwise (· ≤ ·) (fs.map ProposalFile.version) := by
    rw [h]
    exact (List.pairwise_lt_range' 1 n 1 (by omega)).imp Nat.le_of_lt
  rw [List.pairwise_map] at hp
  exact hp

/-- C3: starting from a parent with no versions, any sequence of appends
to a project's submission ledger or a proposal's file ledger produces the
version numbers exactly 1..N with no gaps and no duplicates, even across
interleaved lifecycle operations (which never touch the ledgers, see
C10); and for every parent the read operations return all of its ledger
rows ordered ascending by version number. -/
theorem C3_version_ledger (db db2 : DB) (pid prid : Nat)
    (items : List (String × Int × Nat)) (pitems : List ((String × String) × Int × Nat))
    (h : versionsFor db pid = []) (h2 : proposalFilesFor db2 prid = []) :
    ((get_submission_versions (appendSubs db pid items) pid).map SubmissionVersion.version
        = List.range' 1 items.length)
    ∧ ((get_proposal_files (appendFiles db2 prid pitems) prid).map ProposalFile.version
        = List.range' 1 pitems.length)
    ∧ (∀ dba pida, List.Sorted subVerLe (get_submission_versions dba pida) ∧
        (get_submission_versions dba pida).Perm (versionsFor dba pida) ∧
        List.Sorted fileVerLe (get_proposal_files dba pida) ∧
        (get_proposal_files dba pida).Perm (proposalFilesFor dba pida)) := by
  have hbase : (versionsFor db pid).map SubmissionVersion.version = List.range' 1 0 := by
    rw [h]
    rfl
  have hbase2 : (proposalFilesFor db2 prid).map ProposalFile.version = List.range' 1 0 := by
    rw [h2]
    rfl
  have hs := appendSubs_range db pid items 0 hbase
  have hf := appendFiles_range db2 prid pitems 0 hbase2
  refine ⟨?_, ?_, ?_⟩
  · rw [get_submission_versions,
      List.Sorted.insertionSort_eq
        (sorted_of_map_range _ _ (by simpa using hs))]
    simpa using hs
  · rw [get_proposal_files,
      List.Sorted.insertionSort_eq
        (sorted_of_map_range_file _ _ (by simpa using hf))]
    simpa using hf
  · intro dba pida
    exact ⟨List.sorted_insertionSort subVerLe _,
      List.perm_insertionSort subVerLe _,
      List.sorted_insertionSort fileVerLe _,
      List.perm_insertionSort fileVerLe _⟩

/-- C3 witness: three appends to an empty submission ledger read back as
versions 1, 2, 3. -/
theorem C3_witness :
    (get_submission_versions
        (appendSubs emptyDB 1 [("a", 0, 1), ("b", 1, 2), ("c", 2, 3)]) 1).map
      SubmissionVersion.version = List.range' 1 3 :=
  (C3_version_ledger emptyDB emptyDB 1 1 [("a", 0, 1), ("b", 1, 2), ("c", 2, 3)] []
    rfl rfl).1

end WorkPlatform
